import Mathlib

set_option allowUnsafeReducibility true
attribute [semireducible] Rat.mul Rat.add Rat.inv Rat.sub Rat.neg Rat.div Rat.ofScientific

/-!
Verification of the IssueSpotter moderation decision core.

The Python sources under `app/` are shallowly embedded: every pure
function becomes a Lean function over `String` / `List Char` / `ℚ`,
stateful code (the webhook pending-delivery list) is modelled by explicit
state passing, and the external scorers, embedders and the vector store
are oracle parameters.  Python floats are modelled by exact rationals.
String case functions model the ASCII behaviour of `str.lower`,
`str.upper`, `str.isupper`; the regular expressions of
`app/pipelines/moderation/rules.py` are embedded by equivalent scanners
over character lists.
-/

/-! ## Basic Python string primitives -/

/-- Python `\s` / `str.strip` whitespace class (ASCII part). -/
def pyIsSpace (c : Char) : Bool :=
  c = ' ' || c = '\t' || c = '\n' || c = '\x0b' || c = '\x0c' || c = '\r'

/-- ASCII model of `str.lower` on one character. -/
def pyLowerChar (c : Char) : Char :=
  if 'A' ≤ c ∧ c ≤ 'Z' then Char.ofNat (c.toNat + 32) else c

/-- ASCII model of `str.upper` on one character. -/
def pyUpperChar (c : Char) : Char :=
  if 'a' ≤ c ∧ c ≤ 'z' then Char.ofNat (c.toNat - 32) else c

/-- ASCII model of `str.lower`. -/
def pyLower (s : String) : String := ⟨s.data.map pyLowerChar⟩

/-- ASCII model of `str.upper`. -/
def pyUpper (s : String) : String := ⟨s.data.map pyUpperChar⟩

/-- A cased character (ASCII model): an upper- or lowercase letter. -/
def pyCased (c : Char) : Bool := ('A' ≤ c ∧ c ≤ 'Z') || ('a' ≤ c ∧ c ≤ 'z')

/-- ASCII model of `str.isupper`: at least one cased character and no
lowercase character. -/
def pyIsUpper (s : String) : Bool :=
  s.data.any pyCased && s.data.all (fun c => !('a' ≤ c ∧ c ≤ 'z' : Bool))

/-- Does `p` occur at the head of `l`? -/
def startsList (p l : List Char) : Bool :=
  match p, l with
  | [], _ => true
  | _ :: _, [] => false
  | p :: ps, c :: cs => p = c && startsList ps cs

/-- Does the pattern `p` occur as a contiguous sublist of `l`?  Model of
Python `p in s` for strings. -/
def listHasSub (p : List Char) : List Char → Bool
  | [] => startsList p []
  | c :: t => startsList p (c :: t) || listHasSub p t

/-- Python `pat in s` on strings. -/
def strContains (s pat : String) : Bool := listHasSub pat.data s.data

/-- Word characters of the regex class `\w` (ASCII model). -/
def isWordChar (c : Char) : Bool :=
  ('A' ≤ c ∧ c ≤ 'Z') || ('a' ≤ c ∧ c ≤ 'z') || c.isDigit || c = '_'

/-- Splitting into maximal runs of non-whitespace: model of Python
`str.split()` with no separator argument.  `acc` is the current word,
reversed. -/
def pyWordsAux (acc : List Char) : List Char → List (List Char)
  | [] => if acc.isEmpty then [] else [acc.reverse]
  | c :: t =>
    if pyIsSpace c then
      if acc.isEmpty then pyWordsAux [] t else acc.reverse :: pyWordsAux [] t
    else pyWordsAux (c :: acc) t

/-- Model of Python `text.split()`. -/
def pyWords (l : List Char) : List (List Char) := pyWordsAux [] l

/-! ## RuleEngine: `app/pipelines/moderation/rules.py` -/

/-- Result dict of one rule check: `score`, `flags`, `decision`. -/
structure CheckResult where
  score : ℚ
  flags : List String
  decision : String
deriving DecidableEq

/-- `ModerationRules.BANNED_WORDS`. -/
def BANNED_WORDS : List String :=
  ["spam", "fake", "scam", "clickbait", "http://bit.ly", "http://tinyurl.com"]

/-- `ModerationRules.PROFANITY`. -/
def PROFANITY : List String := ["fuck", "shit", "asshole", "bastard"]

/-- Existence of a match of the regex `(.)\1{4,}`: five or more equal
consecutive characters, none of them a newline (`.` does not match
newline). -/
def hasRepeatRun : List Char → Bool
  | c1 :: c2 :: c3 :: c4 :: c5 :: t =>
    (decide (c1 ≠ '\n') && c1 = c2 && c2 = c3 && c3 = c4 && c4 = c5) ||
      hasRepeatRun (c2 :: c3 :: c4 :: c5 :: t)
  | _ => false

/-- Characters matched by one repetition of the body of the URL regex
`http[s]?://(?:[a-zA-Z]|[0-9]|[$-_@.&+]|[!*\\(\\),]|(?:%[0-9a-fA-F][0-9a-fA-F]))+`.
The `%hh` alternative is subsumed: `%` already lies in the range `$-_`. -/
def urlBodyChar (c : Char) : Bool :=
  ('A' ≤ c ∧ c ≤ 'Z') || ('a' ≤ c ∧ c ≤ 'z') || c.isDigit ||
    ('$' ≤ c ∧ c ≤ '_') || c = '@' || c = '.' || c = '&' || c = '+' ||
    c = '!' || c = '*' || c = '\\' || c = '(' || c = ')' || c = ','

/-- Try to match the URL regex at the very start of `l`; on success
return the remainder after the (greedy, maximal) match. -/
def matchUrlAt (l : List Char) : Option (List Char) :=
  match l with
  | 'h' :: 't' :: 't' :: 'p' :: rest =>
    let afterScheme : Option (List Char) :=
      match rest with
      | 's' :: ':' :: '/' :: '/' :: r => some r
      | ':' :: '/' :: '/' :: r => some r
      | _ => none
    match afterScheme with
    | some (c :: r) => if urlBodyChar c then some (r.dropWhile urlBodyChar) else none
    | _ => none
  | _ => none

/-- Number of non-overlapping, leftmost matches of the URL regex:
model of `len(re.findall(url_pattern, text))`.  `fuel` bounds the scan;
`fuel = l.length` is always enough since every step consumes at least
one character. -/
def countUrlsFuel : Nat → List Char → Nat
  | 0, _ => 0
  | _ + 1, [] => 0
  | fuel + 1, c :: t =>
    match matchUrlAt (c :: t) with
    | some rem => 1 + countUrlsFuel fuel rem
    | none => countUrlsFuel fuel t

/-- Model of `len(re.findall(url_pattern, text))` in `check_spam`. -/
def countUrls (s : String) : Nat := countUrlsFuel s.data.length s.data

/-- `ModerationRules.check_spam`. -/
def check_spam (text : String) : CheckResult :=
  let text_lower := pyLower text
  let s1 : ℚ × List String :=
    if text.length < 20 then (3/10, ["TOO_SHORT"]) else (0, [])
  let s2 : ℚ × List String :=
    if pyIsUpper text && decide (text.length > 50) then
      (s1.1 + 4/10, s1.2 ++ ["ALL_CAPS"])
    else s1
  let s3 : ℚ × List String :=
    if hasRepeatRun text.data then (s2.1 + 3/10, s2.2 ++ ["REPEATED_CHARS"])
    else s2
  let s4 : ℚ × List String :=
    BANNED_WORDS.foldl
      (fun acc w =>
        if strContains text_lower w then
          (acc.1 + 5/10, acc.2 ++ ["BANNED_WORD_" ++ pyUpper w])
        else acc)
      s3
  let s5 : ℚ × List String :=
    if countUrls text > 2 then (s4.1 + 4/10, s4.2 ++ ["EXCESSIVE_URLS"]) else s4
  let score := min s5.1 1
  { score := score
    flags := s5.2
    decision := if score > 7/10 then "REJECT" else "PASS" }

/-- `ModerationRules.check_profanity`. -/
def check_profanity (text : String) : CheckResult :=
  let text_lower := pyLower text
  let hits := PROFANITY.filter (fun w => strContains text_lower w)
  let score : ℚ := min ((hits.length : ℚ) * (3/10)) 1
  { score := score
    flags := hits
    decision := if score > 5/10 then "ESCALATE" else "PASS" }

/-- Is the character just before position `i` a non-word character (or
is `i` the start of the text)?  The regex `\b` boundary before a digit. -/
def boundaryBefore (l : List Char) (i : Nat) : Bool :=
  match i with
  | 0 => true
  | j + 1 =>
    match l.get? j with
    | some c => !isWordChar c
    | none => true

/-- Is the character at position `i` a non-word character (or the end of
the text)?  The regex `\b` boundary after a digit. -/
def boundaryAt (l : List Char) (i : Nat) : Bool :=
  match l.get? i with
  | some c => !isWordChar c
  | none => true

/-- Existence of a match of `\b\d{10,}\b`: a maximal run of at least ten
digits whose neighbours (if any) are non-word characters. -/
def hasPhoneMatch (l : List Char) : Bool :=
  (List.range l.length).any fun i =>
    let run := ((l.drop i).takeWhile Char.isDigit).length
    boundaryBefore l i && decide (10 ≤ run) && boundaryAt l (i + run)

/-- `ModerationRules.check_phone_numbers`. -/
def check_phone_numbers (text : String) : CheckResult :=
  if hasPhoneMatch text.data then
    { score := 1, flags := ["PHONE_NUMBER"], decision := "REJECT" }
  else
    { score := 0, flags := [], decision := "PASS" }

/-- `ModerationRules.check_duplicate_content`. -/
def check_duplicate_content (text : String) : CheckResult :=
  let ws := pyWords text.data
  let total := ws.length
  let uniq := ws.dedup.length
  if total = 0 then
    { score := 1, flags := ["EMPTY"], decision := "REJECT" }
  else if ((uniq : ℚ) / (total : ℚ)) < 3/10 then
    { score := 8/10, flags := ["LOW_UNIQUENESS"], decision := "ESCALATE" }
  else
    { score := 0, flags := [], decision := "PASS" }

/-- Aggregate result of `ModerationRules.run_all_checks` (the `details`
dict is kept as the four check results). -/
structure RulesOutcome where
  stage : String
  score : ℚ
  confidence : ℚ
  flags : List String
  decision : String
  spam : CheckResult
  profanity : CheckResult
  phone : CheckResult
  duplicate : CheckResult
deriving DecidableEq

/-- `ModerationRules.run_all_checks`. -/
def run_all_checks (title description : String) : RulesOutcome :=
  let combined_text := title ++ " " ++ description
  let spam_result := check_spam combined_text
  let profanity_result := check_profanity combined_text
  let phone_result := check_phone_numbers combined_text
  let duplicate_result := check_duplicate_content combined_text
  let all_flags := spam_result.flags ++ profanity_result.flags ++
    phone_result.flags ++ duplicate_result.flags
  let max_score := max spam_result.score (max profanity_result.score
    (max phone_result.score duplicate_result.score))
  let final_decision :=
    if spam_result.decision = "REJECT" ∨ phone_result.decision = "REJECT" ∨
        duplicate_result.decision = "REJECT" then "REJECT"
    else if spam_result.decision = "ESCALATE" ∨
        profanity_result.decision = "ESCALATE" ∨
        duplicate_result.decision = "ESCALATE" then "ESCALATE"
    else "APPROVE"
  { stage := "RULES"
    score := max_score
    confidence := 1
    flags := all_flags
    decision := final_decision
    spam := spam_result
    profanity := profanity_result
    phone := phone_result
    duplicate := duplicate_result }

/-! ## TextNormalizer: `app/pipelines/moderation/preprocessor.py` -/

/-- Remove the trailing run of whitespace. -/
def dropTrailingWs (l : List Char) : List Char :=
  l.foldr (fun c acc => if acc.isEmpty && pyIsSpace c then [] else c :: acc) []

/-- Model of Python `str.strip()`. -/
def pyStrip (l : List Char) : List Char :=
  dropTrailingWs (l.dropWhile pyIsSpace)

/-- Model of `re.sub(r'\s+', ' ', text)`: every maximal whitespace run
becomes a single space.  `prevSpace` records whether the current
position is inside a run whose space has already been emitted. -/
def collapseWsAux (prevSpace : Bool) : List Char → List Char
  | [] => []
  | c :: t =>
    if pyIsSpace c then
      if prevSpace then collapseWsAux true t
      else ' ' :: collapseWsAux true t
    else c :: collapseWsAux false t

/-- `TextPreprocessor.clean_text`. -/
def clean_text (text : String) : String :=
  ⟨collapseWsAux false (pyStrip text.data)⟩

/-- The metadata dict of `TextPreprocessor.extract_metadata`. -/
structure TextMetadata where
  word_count : Nat
  char_count : Nat
  uppercase_ratio : ℚ
  has_urls : Bool
deriving DecidableEq

/-- Model of `c.isupper()` for a single character (ASCII). -/
def pyIsUpperChar (c : Char) : Bool := 'A' ≤ c ∧ c ≤ 'Z'

/-- `TextPreprocessor.extract_metadata`. -/
def extract_metadata (title description : String) : TextMetadata :=
  let combined := title ++ " " ++ description
  { word_count := (pyWords combined.data).length
    char_count := combined.length
    uppercase_ratio :=
      ((combined.data.filter pyIsUpperChar).length : ℚ) /
        (max combined.length 1 : ℚ)
    has_urls := strContains combined "http://" || strContains combined "https://" }

/-! ## score_to_tier: `_score_to_decision` in
`app/pipelines/moderation/classifier.py` -/

/-- `_score_to_decision` (the spec's `score_to_tier`). -/
def score_to_tier (score : ℚ) : String :=
  if score ≥ 8/10 then "RED"
  else if score ≥ 3/10 then "YELLOW"
  else "GREEN"

/-! ## DecisionEngine: `app/pipelines/moderation/decision.py` -/

/-- The fields of the `rules_result` dict read by
`DecisionEngine.make_decision`. -/
structure RulesView where
  score : ℚ
  flags : List String
  decision : String
deriving DecidableEq

/-- The `ai_result` dict as read by `DecisionEngine.make_decision`
(absent keys are `none`; `.get` defaults are applied at use sites).
`agg_score` and `agg_reason` are the aggregated score and reason the
classifier produces; `make_decision` never reads them. -/
structure AIView where
  toxicity : Option ℚ
  civic_relevance : Option ℚ
  confidence : Option ℚ
  agg_score : Option ℚ
  agg_reason : Option String
deriving DecidableEq

/-- Output dict of `DecisionEngine.make_decision`. -/
structure DecisionOutput where
  stage : String
  final_decision : String
  content_decision : String
  confidence : ℚ
  reason : String
  moderation_score : ℚ
deriving DecidableEq

/-- The weighted score of the AI branch of `make_decision`. -/
def combinedScore (rules : RulesView) (ai : AIView) : ℚ :=
  rules.score * (5/10) + (ai.toxicity.getD 0) * (3/10) +
    (1 - ai.civic_relevance.getD (5/10)) * (2/10)

/-- `DecisionEngine.make_decision` (the unused `preprocessing_result`
argument is dropped). -/
def make_decision (rules : RulesView) (ai : AIView) : DecisionOutput :=
  if rules.decision = "REJECT" then
    { stage := "DECISION_ENGINE"
      final_decision := "REJECT"
      content_decision := "RED"
      confidence := 1
      reason := "Failed rule checks: " ++ String.intercalate ", " rules.flags
      moderation_score := rules.score }
  else if rules.decision = "ESCALATE" then
    { stage := "DECISION_ENGINE"
      final_decision := "ESCALATE"
      content_decision := "YELLOW"
      confidence := 7/10
      reason := "Requires human review"
      moderation_score := rules.score }
  else if combinedScore rules ai > 8/10 then
    { stage := "DECISION_ENGINE"
      final_decision := "REJECT"
      content_decision := "RED"
      confidence := ai.confidence.getD (5/10)
      reason := "High risk score - auto-reject"
      moderation_score := combinedScore rules ai }
  else if combinedScore rules ai > 3/10 then
    { stage := "DECISION_ENGINE"
      final_decision := "ESCALATE"
      content_decision := "YELLOW"
      confidence := ai.confidence.getD (5/10)
      reason := "Medium risk - needs review"
      moderation_score := combinedScore rules ai }
  else
    { stage := "DECISION_ENGINE"
      final_decision := "APPROVE"
      content_decision := "GREEN"
      confidence := ai.confidence.getD (5/10)
      reason := "Passed all checks - auto-approve"
      moderation_score := combinedScore rules ai }

/-! ## AIClassifier: `app/pipelines/moderation/classifier.py`

The external scorers and embedders and the vector store are modelled as
oracles carried by `ClassifyOracle`: `classify_full` is a pure function
of the post together with the outcomes of those external calls.  Python
repr/format fragments inside reason strings (the details dict, the
percent formatting of the similarity) are abstracted to the embedded
message text. -/

/-- Result of analysing one piece of content (`AnalysisResult`). -/
structure AnalysisResult where
  content_type : String
  score : ℚ
  decision : String
  embedding : Option (List ℚ)
deriving DecidableEq

/-- Outcome of `_analyze_image` external calls for one image: either the
NSFW score (`confidence` key) plus an optional embedding, or an
exception. -/
inductive ImgOracle where
  | ok (url : String) (conf : ℚ) (emb : Option (List ℚ))
  | err (url : String) (msg : String)
deriving DecidableEq

/-- Outcome of `_analyze_video` for one video: the analyzer's
`max_nsfw_score`, decision string and optional first-frame embedding,
or an exception. -/
inductive VidOracle where
  | ok (url : String) (score : ℚ) (decision : String) (emb : Option (List ℚ))
  | err (url : String) (msg : String)
deriving DecidableEq

/-- A duplicate hit returned by `VectorService.detect_duplicates`. -/
structure DupHit where
  issue_id : String
  similarity_score : ℚ
deriving DecidableEq

/-- One neighbour returned by `VectorService.get_similar_decisions`. -/
structure SimilarCase where
  human_decision : Option String
deriving DecidableEq

/-- All external outcomes consumed by one `classify_full` run. -/
structure ClassifyOracle where
  textEmb : Option (List ℚ)
  textErr : String
  imgs : List ImgOracle
  vids : List VidOracle
  dup : Option DupHit
  similar : List SimilarCase
deriving DecidableEq

/-- `AIClassifier._analyze_text`: embedding generated → score 0, GREEN;
exception → score 0.5, YELLOW. -/
def analyze_text (o : ClassifyOracle) : AnalysisResult :=
  match o.textEmb with
  | some e =>
    { content_type := "TEXT", score := 0, decision := "GREEN", embedding := some e }
  | none =>
    { content_type := "TEXT", score := 5/10, decision := "YELLOW", embedding := none }

/-- `AIClassifier._analyze_image`. -/
def analyze_image : ImgOracle → AnalysisResult
  | .ok _ conf emb =>
    { content_type := "IMAGE", score := conf, decision := score_to_tier conf,
      embedding := emb }
  | .err _ _ =>
    { content_type := "IMAGE", score := 5/10, decision := "YELLOW", embedding := none }

/-- `AIClassifier._analyze_video`. -/
def analyze_video : VidOracle → AnalysisResult
  | .ok _ s d emb =>
    { content_type := "VIDEO", score := s, decision := d, embedding := emb }
  | .err _ _ =>
    { content_type := "VIDEO", score := 5/10, decision := "YELLOW", embedding := none }

/-- The reason string contributed by one image analysis, if any. -/
def imageReason (url : String) (r : AnalysisResult) : List String :=
  if r.decision = "RED" then ["Image flagged RED: " ++ url]
  else if r.decision = "YELLOW" then ["Image needs review: " ++ url]
  else []

/-- The reason string contributed by one video analysis, if any. -/
def videoReason (url : String) (r : AnalysisResult) : List String :=
  if r.decision = "RED" then ["Video flagged RED: " ++ url]
  else if r.decision = "YELLOW" then ["Video needs review: " ++ url]
  else []

/-- The url carried by an image oracle. -/
def ImgOracle.url : ImgOracle → String
  | .ok u _ _ => u
  | .err u _ => u

/-- The url carried by a video oracle. -/
def VidOracle.url : VidOracle → String
  | .ok u _ _ _ => u
  | .err u _ => u

/-- Python `max(scores)` for a possibly empty pool, with the
`if all_scores: ... else: 0.0` wrapper of `classify_full`. -/
def maxOr0 : List ℚ → ℚ
  | [] => 0
  | x :: xs => xs.foldl max x

/-- Truthiness of `result.text_embedding` (`None` and `[]` are falsy). -/
def embTruthy (o : ClassifyOracle) : Bool :=
  match o.textEmb with
  | some e => !e.isEmpty
  | none => false

/-- Number of similar cases with `human_decision == "REJECT"`. -/
def rejectionCount (similar : List SimilarCase) : Nat :=
  (similar.filter (fun s => s.human_decision = some "REJECT")).length

/-- The RAG-bias trigger of `classify_full` step 5:
`rejections > len(similar) / 2`. -/
def ragTriggered (similar : List SimilarCase) : Bool :=
  !similar.isEmpty && decide (2 * rejectionCount similar > similar.length)

/-- `ClassificationResult` (the fields the claims are about). -/
structure ClassificationResult where
  post_id : String
  final_decision : String
  final_score : ℚ
  reason : String
  text_analysis : AnalysisResult
  image_analyses : List AnalysisResult
  video_analyses : List AnalysisResult
  duplicate_detected : Bool
  duplicate_info : Option DupHit
  similar_cases : List SimilarCase
deriving DecidableEq

/-- `AIClassifier.classify_full`. -/
def classify_full (post_id : String) (o : ClassifyOracle) : ClassificationResult :=
  let text_result := analyze_text o
  let img_results := o.imgs.map analyze_image
  let vid_results := o.vids.map analyze_video
  let scores_text : List ℚ :=
    if text_result.decision ≠ "GREEN" then [text_result.score] else []
  let reasons_text : List String :=
    if text_result.decision ≠ "GREEN" then ["Text: " ++ o.textErr] else []
  let scores_img : List ℚ := img_results.map (fun r => r.score)
  let reasons_img : List String :=
    (o.imgs.zip img_results).flatMap (fun p => imageReason p.1.url p.2)
  let scores_vid : List ℚ := vid_results.map (fun r => r.score)
  let reasons_vid : List String :=
    (o.vids.zip vid_results).flatMap (fun p => videoReason p.1.url p.2)
  let dupFound : Option DupHit := if embTruthy o then o.dup else none
  let scores_dup : List ℚ :=
    match dupFound with
    | some d => [d.similarity_score]
    | none => []
  let reasons_dup : List String :=
    match dupFound with
    | some d => ["Duplicate of " ++ d.issue_id]
    | none => []
  let ragSimilar : List SimilarCase := if embTruthy o then o.similar else []
  let scores_rag : List ℚ := if ragTriggered ragSimilar then [6/10] else []
  let reasons_rag : List String :=
    if ragTriggered ragSimilar then
      ["Similar past cases rejected by moderators"]
    else []
  let all_scores := scores_text ++ scores_img ++ scores_vid ++ scores_dup ++ scores_rag
  let all_reasons := reasons_text ++ reasons_img ++ reasons_vid ++ reasons_dup ++ reasons_rag
  let final_score := maxOr0 all_scores
  { post_id := post_id
    final_decision := score_to_tier final_score
    final_score := final_score
    reason :=
      if all_reasons.isEmpty then "Content passed all checks"
      else String.intercalate "; " all_reasons
    text_analysis := text_result
    image_analyses := img_results
    video_analyses := vid_results
    duplicate_detected := dupFound.isSome
    duplicate_info := dupFound
    similar_cases := ragSimilar }

/-! ## NotificationDispatcher: `app/services/webhook_service.py`

The HTTP transport is an oracle mapping the attempt number (1-based) to
its outcome; `asyncio.sleep` calls are recorded as a trace of delays;
the class-level `_pending_deliveries` list is passed and returned
explicitly.  `datetime.utcnow().isoformat()` is an input (`now`). -/

/-- `MAX_RETRIES`. -/
def MAX_RETRIES : Nat := 3

/-- `INITIAL_RETRY_DELAY` (seconds). -/
def INITIAL_RETRY_DELAY : ℚ := 1

/-- `MAX_RETRY_DELAY` (seconds). -/
def MAX_RETRY_DELAY : ℚ := 30

/-- `WebhookPayload` (the fields; `to_dict` is the identity in the
model, so the payload snapshot stored in a pending delivery is the
payload itself). -/
structure WebhookPayload where
  post_id : String
  decision : String
  score : ℚ
  reason : String
  timestamp : String
  ai_decision : String
  human_decision : Option String
deriving DecidableEq

/-- Outcome of one HTTP POST attempt: a response with a status code and
body, a timeout, a connection failure, or any other exception. -/
inductive AttemptOutcome where
  | response (status : Nat) (body : String)
  | timeout
  | connectErr
  | exc (msg : String)
deriving DecidableEq

/-- The success condition `response.status_code in (200, 201, 202, 204)`. -/
def isSuccessStatus (s : Nat) : Bool :=
  s = 200 || s = 201 || s = 202 || s = 204

/-- Did this attempt succeed? -/
def attemptOk : AttemptOutcome → Bool
  | .response s _ => isSuccessStatus s
  | _ => false

/-- The `last_error` string recorded for a failed attempt. -/
def attemptError : AttemptOutcome → String
  | .response s body => "HTTP " ++ toString s ++ ": " ++ ⟨body.data.take 200⟩
  | .timeout => "Request timeout"
  | .connectErr => "Connection refused"
  | .exc msg => msg

/-- `WebhookResult`. -/
structure WebhookResult where
  success : Bool
  status_code : Option Nat
  response_body : Option String
  error : Option String
  attempts : Nat
deriving DecidableEq

/-- An entry of the `_pending_deliveries` list. -/
structure PendingDelivery where
  url : String
  payload : WebhookPayload
  failed_at : String
  error : Option String
deriving DecidableEq

/-- The successful `WebhookResult` built in the loop body (the second
constructor arm is unreachable: a non-response outcome never succeeds). -/
def successResult (attempt : Nat) : AttemptOutcome → WebhookResult
  | .response s body =>
    { success := true, status_code := some s,
      response_body := some ⟨body.data.take 500⟩, error := none,
      attempts := attempt }
  | _ =>
    { success := true, status_code := none, response_body := none,
      error := none, attempts := attempt }

/-- State of the `for attempt in range(1, MAX_RETRIES + 1)` loop of
`send_webhook`: the early-exit result (set on a successful POST),
`retry_delay`, `last_error`, and the trace of `asyncio.sleep` delays. -/
structure SendLoopState where
  result : Option WebhookResult
  retry_delay : ℚ
  last_error : Option String
  sleeps : List ℚ
deriving DecidableEq

/-- The body of the retry loop for one attempt number.  After a
successful attempt the function has returned, so the state passes
through unchanged. -/
def attemptStep (oracle : Nat → AttemptOutcome) (st : SendLoopState)
    (attempt : Nat) : SendLoopState :=
  match st.result with
  | some _ => st
  | none =>
    if attemptOk (oracle attempt) then
      { st with result := some (successResult attempt (oracle attempt)) }
    else if attempt < MAX_RETRIES then
      { result := none
        retry_delay := min (st.retry_delay * 2) MAX_RETRY_DELAY
        last_error := some (attemptError (oracle attempt))
        sleeps := st.sleeps ++ [st.retry_delay] }
    else
      { st with last_error := some (attemptError (oracle attempt)) }

/-- `WebhookService.send_webhook`: returns the `WebhookResult`, the new
`_pending_deliveries` list, and the trace of backoff sleeps.  The
attempt list `[1, 2, 3]` is `range(1, MAX_RETRIES + 1)`. -/
def send_webhook (oracle : Nat → AttemptOutcome) (pending : List PendingDelivery)
    (url : String) (payload : WebhookPayload) (now : String) :
    WebhookResult × List PendingDelivery × List ℚ :=
  let final := [1, 2, 3].foldl (attemptStep oracle)
    { result := none, retry_delay := INITIAL_RETRY_DELAY,
      last_error := none, sleeps := [] }
  match final.result with
  | some res => (res, pending, final.sleeps)
  | none =>
    ({ success := false, status_code := none, response_body := none,
       error := final.last_error, attempts := MAX_RETRIES },
     pending ++ [{ url := url, payload := payload, failed_at := now,
                   error := final.last_error }],
     final.sleeps)

/-- Counters returned by `retry_pending_deliveries`. -/
structure RetryResults where
  retried : Nat
  success : Nat
  failed : Nat
deriving DecidableEq

/-- State of the `for delivery in cls._pending_deliveries` loop in
`retry_pending_deliveries`: the (live, still mutable) list being
iterated, the iterator index, the `remaining` accumulator and the
counters. -/
structure RetryLoopState where
  lst : List PendingDelivery
  idx : Nat
  remaining : List PendingDelivery
  results : RetryResults
deriving DecidableEq

/-- One iteration of the loop body over the delivery at `idx`.  The
nested `send_webhook` call uses its own attempt oracle: `ok d = true`
means that delivery now succeeds within three attempts; on failure
`send_webhook` appends a fresh pending entry for the same url and
payload to the very list being iterated. -/
def retryLoopStep (ok : PendingDelivery → Bool) (now : String) (err : String)
    (st : RetryLoopState) (d : PendingDelivery) : RetryLoopState :=
  if ok d then
    { st with
      idx := st.idx + 1
      results := { st.results with
        retried := st.results.retried + 1
        success := st.results.success + 1 } }
  else
    { lst := st.lst ++ [{ url := d.url, payload := d.payload,
                          failed_at := now, error := some err }]
      idx := st.idx + 1
      remaining := st.remaining ++ [d]
      results := { st.results with
        retried := st.results.retried + 1
        failed := st.results.failed + 1 } }

/-- Run the loop for at most `fuel` iterations; `none` means the loop is
still running after `fuel` iterations, `some` gives the final counters
and the new `_pending_deliveries` list (`remaining`). -/
def retryLoopRun (ok : PendingDelivery → Bool) (now : String) (err : String) :
    Nat → RetryLoopState → Option (RetryResults × List PendingDelivery)
  | 0, _ => none
  | fuel + 1, st =>
    match st.lst.get? st.idx with
    | some d => retryLoopRun ok now err fuel (retryLoopStep ok now err st d)
    | none => some (st.results, st.remaining)

/-- `WebhookService.retry_pending_deliveries`, with the live-list
iteration semantics of the Python `for` loop. -/
def retry_pending_deliveries (ok : PendingDelivery → Bool) (now : String)
    (err : String) (pending : List PendingDelivery) (fuel : Nat) :
    Option (RetryResults × List PendingDelivery) :=
  if pending.isEmpty then some ({ retried := 0, success := 0, failed := 0 }, pending)
  else retryLoopRun ok now err fuel
    { lst := pending, idx := 0, remaining := [], results := ⟨0, 0, 0⟩ }

/-! ## Claim theorems -/

/-- Claim C2: for every score `s`, `score_to_tier` returns GREEN iff
`s < 0.3`, YELLOW iff `0.3 ≤ s < 0.8`, RED iff `s ≥ 0.8`; in particular
`s = 0.3` yields YELLOW and `s = 0.8` yields RED. -/
theorem score_to_tier_spec (s : ℚ) :
    (score_to_tier s = "GREEN" ↔ s < 3/10) ∧
    (score_to_tier s = "YELLOW" ↔ 3/10 ≤ s ∧ s < 8/10) ∧
    (score_to_tier s = "RED" ↔ 8/10 ≤ s) ∧
    score_to_tier (3/10) = "YELLOW" ∧ score_to_tier (8/10) = "RED" := by
  refine ⟨?_, ?_, ?_, by decide, by decide⟩ <;>
  · unfold score_to_tier
    split_ifs with h1 h2 <;> simp_all <;> try linarith

/-- Claim C8, counterexample: on the combined text
"SPAM SPAM SPAM SPAM SPAM SPAM SPAM" (34 characters, so not longer than
50) the rule checks do not raise `ALL_CAPS` and the aggregate decision
is ESCALATE, not REJECT. -/
theorem run_all_checks_spam_counterexample :
    "ALL_CAPS" ∉ (run_all_checks "SPAM SPAM SPAM" "SPAM SPAM SPAM SPAM").flags ∧
    (run_all_checks "SPAM SPAM SPAM" "SPAM SPAM SPAM SPAM").decision = "ESCALATE" := by
  decide

/-- Claim C8, amended: on the combined text
"SPAM SPAM SPAM SPAM SPAM SPAM SPAM" the flags include
`BANNED_WORD_SPAM` (but not `ALL_CAPS`: the text has 34 characters, not
more than 50, so the all-caps rule does not fire), the aggregate score
is `0.8 ≥ 0.8` (contributed by `LOW_UNIQUENESS`), and the final
decision is ESCALATE, not REJECT. -/
theorem run_all_checks_spam_amended :
    "BANNED_WORD_SPAM" ∈ (run_all_checks "SPAM SPAM SPAM" "SPAM SPAM SPAM SPAM").flags ∧
    (run_all_checks "SPAM SPAM SPAM" "SPAM SPAM SPAM SPAM").flags =
      ["BANNED_WORD_SPAM", "LOW_UNIQUENESS"] ∧
    (run_all_checks "SPAM SPAM SPAM" "SPAM SPAM SPAM SPAM").score = 8/10 ∧
    (run_all_checks "SPAM SPAM SPAM" "SPAM SPAM SPAM SPAM").decision = "ESCALATE" := by
  decide

/-- Modelled from the claim C7 wording only (not from the source): the
text contains a run of ten or more consecutive digit characters
anywhere.  The source regex `\b\d{10,}\b` additionally requires word
boundaries; this predicate is the claim's boundary-free version, used to
exhibit the counterexample. -/
def specDigitRun10 (l : List Char) : Bool :=
  (List.range l.length).any fun i =>
    10 ≤ ((l.drop i).takeWhile Char.isDigit).length

/-- Claim C7, counterexample: the text "a1234567890b" contains a run of
ten consecutive digits, yet `check_phone_numbers` passes it (the regex
`\b\d{10,}\b` requires word boundaries and `a`, `b` are word
characters), and the aggregate decision on it is APPROVE, not REJECT. -/
theorem check_phone_numbers_counterexample :
    specDigitRun10 "a1234567890b".data = true ∧
    (check_phone_numbers "a1234567890b").decision = "PASS" ∧
    (run_all_checks "" "a1234567890b").decision = "APPROVE" := by
  decide

/-- Claim C7, amended: the contact-leakage check returns score 1.0, flag
`PHONE_NUMBER` and decision REJECT exactly when the text contains a run
of ten or more consecutive digits delimited by word boundaries (not
adjacent to a letter, digit or underscore) — otherwise score 0 and PASS
— and whenever the combined title/description text contains such a
bounded run the aggregate rule decision is REJECT regardless of the
other checks. -/
theorem check_phone_numbers_boundary (title description text : String)
    (hm : hasPhoneMatch text.data = true)
    (hc : hasPhoneMatch (title ++ " " ++ description).data = true) :
    check_phone_numbers text =
      { score := 1, flags := ["PHONE_NUMBER"], decision := "REJECT" } ∧
    (∀ t : String, hasPhoneMatch t.data = false →
      check_phone_numbers t = { score := 0, flags := [], decision := "PASS" }) ∧
    (run_all_checks title description).decision = "REJECT" := by
  refine ⟨?_, ?_, ?_⟩
  · unfold check_phone_numbers
    rw [hm]
    rfl
  · intro t ht
    unfold check_phone_numbers
    rw [ht]
    rfl
  · unfold run_all_checks
    simp only []
    rw [if_pos]
    right; left
    unfold check_phone_numbers
    rw [hc]
    rfl

/-- Witness for the amended claim C7 at concrete inputs. -/
theorem check_phone_numbers_boundary_witness :
    check_phone_numbers "x 9876543210" =
      { score := 1, flags := ["PHONE_NUMBER"], decision := "REJECT" } ∧
    (run_all_checks "call" "9876543210 now").decision = "REJECT" :=
  ⟨(check_phone_numbers_boundary "call" "9876543210 now" "x 9876543210"
      (by decide) (by decide)).1,
   (check_phone_numbers_boundary "call" "9876543210 now" "x 9876543210"
      (by decide) (by decide)).2.2⟩

/-- Claim C9, counterexample: with both title and description empty the
combined string is the single joining space, so the character count is
1, not 0 (the word count is 0). -/
theorem extract_metadata_empty_counterexample :
    (extract_metadata "" "").char_count = 1 ∧
    (extract_metadata "" "").word_count = 0 := by
  decide

/-- Claim C9, amended: `extract_metadata` works on the combined string
`title ++ " " ++ description`: the character count is
`len(title) + len(description) + 1`, the word count is the number of
maximal whitespace-delimited words of the combined string, the
uppercase ratio is the number of uppercase characters divided by
`max(len, 1)` and always lies in `[0, 1]`, and the URL flag is the
presence of `http://` or `https://`; with both inputs empty the word
count is 0, the ratio is 0, the URL flag is false, and the character
count is 1 (the joining space). -/
theorem extract_metadata_spec (title description : String) :
    (extract_metadata title description).char_count =
      title.length + 1 + description.length ∧
    (extract_metadata title description).word_count =
      (pyWords (title ++ " " ++ description).data).length ∧
    (extract_metadata title description).uppercase_ratio =
      (((title ++ " " ++ description).data.filter pyIsUpperChar).length : ℚ) /
        (max (title ++ " " ++ description).length 1 : ℚ) ∧
    0 ≤ (extract_metadata title description).uppercase_ratio ∧
    (extract_metadata title description).uppercase_ratio ≤ 1 ∧
    (extract_metadata title description).has_urls =
      (strContains (title ++ " " ++ description) "http://" ||
        strContains (title ++ " " ++ description) "https://") ∧
    (extract_metadata "" "").word_count = 0 ∧
    (extract_metadata "" "").char_count = 1 ∧
    (extract_metadata "" "").uppercase_ratio = 0 ∧
    (extract_metadata "" "").has_urls = false := by
  have hr : (extract_metadata title description).uppercase_ratio =
      (((title ++ " " ++ description).data.filter pyIsUpperChar).length : ℚ) /
        (max (title ++ " " ++ description).length 1 : ℚ) := rfl
  have hsp : (" " : String).length = 1 := by decide
  refine ⟨?_, rfl, hr, ?_, ?_, rfl, by decide, by decide, by decide, by decide⟩
  · show (title ++ " " ++ description).length = title.length + 1 + description.length
    rw [String.length_append, String.length_append, hsp]
  · rw [hr]
    apply div_nonneg
    · exact_mod_cast Nat.zero_le _
    · exact_mod_cast Nat.zero_le _
  · rw [hr]
    have hpos : (0 : ℚ) < (max (title ++ " " ++ description).length 1 : ℚ) := by
      have h := le_max_right (title ++ " " ++ description).length 1
      have h2 : (1 : ℚ) ≤ (max (title ++ " " ++ description).length 1 : ℚ) := by
        exact_mod_cast h
      linarith
    rw [div_le_one hpos]
    have h1 : ((title ++ " " ++ description).data.filter pyIsUpperChar).length ≤
        (title ++ " " ++ description).length :=
      List.length_filter_le pyIsUpperChar (title ++ " " ++ description).data
    have h2 : (title ++ " " ++ description).length ≤
        max (title ++ " " ++ description).length 1 := le_max_left _ _
    exact_mod_cast le_trans h1 h2

/-- Claim C4: the aggregate of `run_all_checks` has score the maximum of
the four check scores, flags the concatenation of the four flag lists,
decision REJECT iff one of spam, contact-leakage or duplication decided
REJECT, else ESCALATE iff one of spam, profanity or duplication decided
ESCALATE, else APPROVE; the profanity check never decides REJECT, so
profanity alone can never force REJECT. -/
theorem run_all_checks_aggregate (title description : String) :
    (run_all_checks title description).score =
      max (check_spam (title ++ " " ++ description)).score
        (max (check_profanity (title ++ " " ++ description)).score
          (max (check_phone_numbers (title ++ " " ++ description)).score
            (check_duplicate_content (title ++ " " ++ description)).score)) ∧
    (run_all_checks title description).flags =
      (check_spam (title ++ " " ++ description)).flags ++
        (check_profanity (title ++ " " ++ description)).flags ++
        (check_phone_numbers (title ++ " " ++ description)).flags ++
        (check_duplicate_content (title ++ " " ++ description)).flags ∧
    ((run_all_checks title description).decision = "REJECT" ↔
      ((check_spam (title ++ " " ++ description)).decision = "REJECT" ∨
        (check_phone_numbers (title ++ " " ++ description)).decision = "REJECT" ∨
        (check_duplicate_content (title ++ " " ++ description)).decision = "REJECT")) ∧
    ((run_all_checks title description).decision = "ESCALATE" ↔
      (¬((check_spam (title ++ " " ++ description)).decision = "REJECT" ∨
        (check_phone_numbers (title ++ " " ++ description)).decision = "REJECT" ∨
        (check_duplicate_content (title ++ " " ++ description)).decision = "REJECT") ∧
      ((check_spam (title ++ " " ++ description)).decision = "ESCALATE" ∨
        (check_profanity (title ++ " " ++ description)).decision = "ESCALATE" ∨
        (check_duplicate_content (title ++ " " ++ description)).decision = "ESCALATE"))) ∧
    ((run_all_checks title description).decision = "APPROVE" ↔
      (¬((check_spam (title ++ " " ++ description)).decision = "REJECT" ∨
        (check_phone_numbers (title ++ " " ++ description)).decision = "REJECT" ∨
        (check_duplicate_content (title ++ " " ++ description)).decision = "REJECT") ∧
      ¬((check_spam (title ++ " " ++ description)).decision = "ESCALATE" ∨
        (check_profanity (title ++ " " ++ description)).decision = "ESCALATE" ∨
        (check_duplicate_content (title ++ " " ++ description)).decision = "ESCALATE"))) ∧
    (check_profanity (title ++ " " ++ description)).decision ≠ "REJECT" := by
  have key : (run_all_checks title description).decision =
      (if (check_spam (title ++ " " ++ description)).decision = "REJECT" ∨
          (check_phone_numbers (title ++ " " ++ description)).decision = "REJECT" ∨
          (check_duplicate_content (title ++ " " ++ description)).decision = "REJECT"
        then "REJECT"
        else if (check_spam (title ++ " " ++ description)).decision = "ESCALATE" ∨
          (check_profanity (title ++ " " ++ description)).decision = "ESCALATE" ∨
          (check_duplicate_content (title ++ " " ++ description)).decision = "ESCALATE"
        then "ESCALATE" else "APPROVE") := rfl
  refine ⟨by rfl, by rfl, ?_, ?_, ?_, ?_⟩
  · rw [key]; split_ifs with h1 h2 <;> simp_all
  · rw [key]; split_ifs with h1 h2 <;> simp_all
  · rw [key]; split_ifs with h1 h2 <;> simp_all
  · simp only [check_profanity]
    split_ifs <;> decide

/-- Claim C1, counterexample: with an approving rules result and an AI
result whose aggregated score is 0.9 (which `score_to_tier` maps to
RED) and whose reason is the aggregator's reason string,
`make_decision` nevertheless returns GREEN with its own fixed reason:
the AI branch uses the weighted formula
`0.5*rules + 0.3*toxicity + 0.2*(1-civic_relevance)`, never the
aggregated AI score nor the aggregator's reason. -/
theorem make_decision_counterexample :
    (make_decision { score := 0, flags := [], decision := "APPROVE" }
      { toxicity := none, civic_relevance := none, confidence := some (9/10),
        agg_score := some (9/10),
        agg_reason := some "Image flagged RED: img1" }).content_decision = "GREEN" ∧
    score_to_tier (9/10) = "RED" ∧
    (make_decision { score := 0, flags := [], decision := "APPROVE" }
      { toxicity := none, civic_relevance := none, confidence := some (9/10),
        agg_score := some (9/10),
        agg_reason := some "Image flagged RED: img1" }).reason =
      "Passed all checks - auto-approve" := by
  decide

/-- Claim C1, amended: rule REJECT gives RED with confidence 1.0 and the
joined rule flags in the failure reason; rule ESCALATE gives YELLOW with
confidence 0.7 and reason "Requires human review"; otherwise the engine
ignores the aggregated AI score and instead computes the weighted score
`0.5*rules_score + 0.3*toxicity (default 0) + 0.2*(1 - civic_relevance
(default 0.5))`, maps it with strict thresholds (RED iff > 0.8, YELLOW
iff 0.3 < score ≤ 0.8, GREEN iff ≤ 0.3), takes the AI confidence when
present (default 0.5), and uses one of three fixed reason strings, not
the aggregator's reason. -/
theorem make_decision_amended (r : RulesView) (a : AIView) :
    (r.decision = "REJECT" → make_decision r a =
      { stage := "DECISION_ENGINE", final_decision := "REJECT",
        content_decision := "RED", confidence := 1,
        reason := "Failed rule checks: " ++ String.intercalate ", " r.flags,
        moderation_score := r.score }) ∧
    (r.decision ≠ "REJECT" → r.decision = "ESCALATE" → make_decision r a =
      { stage := "DECISION_ENGINE", final_decision := "ESCALATE",
        content_decision := "YELLOW", confidence := 7/10,
        reason := "Requires human review", moderation_score := r.score }) ∧
    (r.decision ≠ "REJECT" → r.decision ≠ "ESCALATE" →
      ((make_decision r a).content_decision = "RED" ↔ combinedScore r a > 8/10) ∧
      ((make_decision r a).content_decision = "YELLOW" ↔
        (3/10 < combinedScore r a ∧ combinedScore r a ≤ 8/10)) ∧
      ((make_decision r a).content_decision = "GREEN" ↔ combinedScore r a ≤ 3/10) ∧
      (make_decision r a).confidence = a.confidence.getD (5/10) ∧
      (make_decision r a).moderation_score = combinedScore r a ∧
      ((make_decision r a).reason = "High risk score - auto-reject" ∨
        (make_decision r a).reason = "Medium risk - needs review" ∨
        (make_decision r a).reason = "Passed all checks - auto-approve")) := by
  refine ⟨?_, ?_, ?_⟩
  · intro h
    unfold make_decision
    rw [if_pos h]
  · intro h1 h2
    unfold make_decision
    rw [if_neg h1, if_pos h2]
  · intro h1 h2
    unfold make_decision
    rw [if_neg h1, if_neg h2]
    split_ifs with hx hy <;>
      refine ⟨?_, ?_, ?_, rfl, rfl, by simp⟩ <;> (simp_all; try linarith)

/-- Witness for the amended claim C1: the REJECT branch and the GREEN
characterisation of the AI branch at concrete inputs. -/
theorem make_decision_amended_witness :
    make_decision { score := 1/2, flags := ["PHONE_NUMBER"], decision := "REJECT" }
      { toxicity := none, civic_relevance := none, confidence := none,
        agg_score := none, agg_reason := none } =
      { stage := "DECISION_ENGINE", final_decision := "REJECT",
        content_decision := "RED", confidence := 1,
        reason := "Failed rule checks: " ++ String.intercalate ", " ["PHONE_NUMBER"],
        moderation_score := 1/2 } ∧
    ((make_decision { score := 0, flags := [], decision := "APPROVE" }
      { toxicity := none, civic_relevance := none, confidence := none,
        agg_score := none, agg_reason := none }).content_decision = "GREEN" ↔
      combinedScore { score := 0, flags := [], decision := "APPROVE" }
        { toxicity := none, civic_relevance := none, confidence := none,
          agg_score := none, agg_reason := none } ≤ 3/10) :=
  ⟨(make_decision_amended { score := 1/2, flags := ["PHONE_NUMBER"], decision := "REJECT" }
      { toxicity := none, civic_relevance := none, confidence := none,
        agg_score := none, agg_reason := none }).1 (by decide),
   ((make_decision_amended { score := 0, flags := [], decision := "APPROVE" }
      { toxicity := none, civic_relevance := none, confidence := none,
        agg_score := none, agg_reason := none }).2.2 (by decide) (by decide)).2.2.1⟩

/-- Prepending `0` to a pool of nonnegative scores does not change its
maximum. -/
theorem maxOr0_cons_zero (l : List ℚ) (h : ∀ x ∈ l, 0 ≤ x) :
    maxOr0 ((0 : ℚ) :: l) = maxOr0 l := by
  cases l with
  | nil => rfl
  | cons a t =>
    show t.foldl max (max 0 a) = t.foldl max a
    rw [max_eq_right (h a (List.mem_cons_self a t))]

/-- Claim C3: the final aggregated score of `classify_full` is the
maximum over the text score, all image and video scores, the duplicate
similarity when a duplicate was found, and the fixed RAG-bias score 0.6
included exactly when a strict majority of the returned similar cases
carry human decision REJECT; and when no signal contributes the final
score is 0 and the reason is "Content passed all checks". -/
theorem classify_full_aggregation (pid : String) (o : ClassifyOracle)
    (himg : ∀ r ∈ o.imgs, 0 ≤ (analyze_image r).score)
    (hvid : ∀ r ∈ o.vids, 0 ≤ (analyze_video r).score)
    (hdup : ∀ d, o.dup = some d → 0 ≤ d.similarity_score) :
    (classify_full pid o).final_score =
      maxOr0 ((analyze_text o).score ::
        ((o.imgs.map analyze_image).map (fun r => r.score) ++
          (o.vids.map analyze_video).map (fun r => r.score) ++
          (match (if embTruthy o then o.dup else none) with
            | some d => [d.similarity_score]
            | none => []) ++
          (if ragTriggered (if embTruthy o then o.similar else [])
            then [(6 : ℚ)/10] else []))) ∧
    (o.imgs = [] → o.vids = [] → (embTruthy o = true → o.dup = none) →
      ragTriggered (if embTruthy o then o.similar else []) = false →
      ∀ e, o.textEmb = some e →
        (classify_full pid o).final_score = 0 ∧
        (classify_full pid o).reason = "Content passed all checks") := by
  obtain ⟨te, terr, imgs, vids, dup, sim⟩ := o
  have hrest : ∀ x ∈
      ((imgs.map analyze_image).map (fun r => r.score) ++
        (vids.map analyze_video).map (fun r => r.score) ++
        (match (if embTruthy ⟨te, terr, imgs, vids, dup, sim⟩ then dup else none) with
          | some d => [d.similarity_score]
          | none => []) ++
        (if ragTriggered (if embTruthy ⟨te, terr, imgs, vids, dup, sim⟩ then sim else [])
          then [(6 : ℚ)/10] else [])), (0 : ℚ) ≤ x := by
    intro x hx
    rcases List.mem_append.1 hx with hx | hx
    · rcases List.mem_append.1 hx with hx | hx
      · rcases List.mem_append.1 hx with hx | hx
        · obtain ⟨r, hr, hxe⟩ := List.mem_map.1 hx
          obtain ⟨ro, hro, hre⟩ := List.mem_map.1 hr
          subst hre
          exact hxe ▸ himg ro hro
        · obtain ⟨r, hr, hxe⟩ := List.mem_map.1 hx
          obtain ⟨ro, hro, hre⟩ := List.mem_map.1 hr
          subst hre
          exact hxe ▸ hvid ro hro
      · rcases hif : (if embTruthy ⟨te, terr, imgs, vids, dup, sim⟩ then dup else none) with
          _ | d
        · rw [hif] at hx
          simp at hx
        · rw [hif] at hx
          have hd : dup = some d := by
            by_cases hb : embTruthy ⟨te, terr, imgs, vids, dup, sim⟩ = true
            · rwa [if_pos hb] at hif
            · rw [if_neg hb] at hif
              exact absurd hif (by simp)
          have := hdup d hd
          simp only [List.mem_singleton] at hx
          exact hx ▸ this
    · by_cases hrag : ragTriggered
          (if embTruthy ⟨te, terr, imgs, vids, dup, sim⟩ then sim else []) = true
      · rw [if_pos hrag] at hx
        simp only [List.mem_singleton] at hx
        rw [hx]
        norm_num
      · rw [if_neg hrag] at hx
        simp at hx
  cases te with
  | none =>
    refine ⟨rfl, ?_⟩
    intro _ _ _ _ e he
    exact absurd he (by simp)
  | some e0 =>
    constructor
    · exact (maxOr0_cons_zero _ hrest).symm
    · intro h1 h2 h3 h4 e _
      subst h1
      subst h2
      have hsd : (if embTruthy ⟨some e0, terr, [], [], dup, sim⟩ then dup else none) = none := by
        by_cases hb : embTruthy ⟨some e0, terr, [], [], dup, sim⟩ = true
        · rw [if_pos hb]
          exact h3 hb
        · rw [if_neg hb]
      constructor
      · show maxOr0 _ = 0
        simp only [classify_full, analyze_text]
        rw [hsd, h4]
        rfl
      · show (if _ then _ else _) = _
        simp only [classify_full, analyze_text]
        rw [hsd, h4]
        rfl

/-- Witness for claim C3: one image scoring 0.9, no other signal, gives
final score 0.9. -/
theorem classify_full_aggregation_witness :
    (classify_full "p"
      { textEmb := some [1], textErr := "", imgs := [ImgOracle.ok "u" (9/10) none],
        vids := [], dup := none, similar := [] }).final_score = 9/10 :=
  ((classify_full_aggregation "p"
      { textEmb := some [1], textErr := "", imgs := [ImgOracle.ok "u" (9/10) none],
        vids := [], dup := none, similar := [] }
      (by decide) (by decide) (by decide)).1).trans (by decide)

/-- The list does not start with a whitespace character. -/
def startsNonWs : List Char → Bool
  | [] => true
  | c :: _ => !pyIsSpace c

/-- The list does not end with a whitespace character. -/
def endsNonWs (l : List Char) : Bool :=
  match l.getLast? with
  | none => true
  | some c => !pyIsSpace c

/-- No two adjacent whitespace characters. -/
def noAdjWs : List Char → Bool
  | [] => true
  | c :: t => (if pyIsSpace c then startsNonWs t else true) && noAdjWs t

/-- Every whitespace character of the list is a plain space. -/
def wsOnlySpace (l : List Char) : Bool :=
  l.all fun c => !pyIsSpace c || c = ' '

theorem dropTrailingWs_cons (c : Char) (t : List Char) :
    dropTrailingWs (c :: t) =
      if (dropTrailingWs t).isEmpty && pyIsSpace c then []
      else c :: dropTrailingWs t := rfl

theorem startsNonWs_dropWhile (l : List Char) :
    startsNonWs (l.dropWhile pyIsSpace) = true := by
  induction l with
  | nil => rfl
  | cons c t ih =>
    rw [List.dropWhile_cons]
    by_cases h : pyIsSpace c = true
    · rw [if_pos h]
      exact ih
    · rw [if_neg h]
      simp [startsNonWs, h]

theorem startsNonWs_dropTrailingWs (l : List Char) (h : startsNonWs l = true) :
    startsNonWs (dropTrailingWs l) = true := by
  cases l with
  | nil => rfl
  | cons c t =>
    rw [dropTrailingWs_cons]
    by_cases hc : ((dropTrailingWs t).isEmpty && pyIsSpace c) = true
    · rw [if_pos hc]
      rfl
    · rw [if_neg hc]
      exact h

theorem endsNonWs_dropTrailingWs (l : List Char) :
    endsNonWs (dropTrailingWs l) = true := by
  induction l with
  | nil => rfl
  | cons c t ih =>
    rw [dropTrailingWs_cons]
    by_cases hc : ((dropTrailingWs t).isEmpty && pyIsSpace c) = true
    · rw [if_pos hc]
      rfl
    · rw [if_neg hc]
      rcases hd : dropTrailingWs t with _ | ⟨d, ds⟩
      · have hsp : pyIsSpace c = false := by
          by_cases hs : pyIsSpace c = true
          · exact absurd (by simp [hd, hs] : ((dropTrailingWs t).isEmpty &&
              pyIsSpace c) = true) hc
          · simpa using hs
        simp [endsNonWs, hsp]
      · rw [hd] at ih
        simpa [endsNonWs, List.getLast?_cons_cons] using ih

theorem startsNonWs_collapse_true (l : List Char) :
    startsNonWs (collapseWsAux true l) = true := by
  induction l with
  | nil => rfl
  | cons c t ih =>
    show startsNonWs (if pyIsSpace c then collapseWsAux true t
      else c :: collapseWsAux false t) = true
    by_cases h : pyIsSpace c = true
    · rw [if_pos h]
      exact ih
    · rw [if_neg h]
      simp [startsNonWs, h]

theorem noAdjWs_collapse (l : List Char) (b : Bool) :
    noAdjWs (collapseWsAux b l) = true := by
  induction l generalizing b with
  | nil => rfl
  | cons c t ih =>
    by_cases h : pyIsSpace c = true
    · show noAdjWs (if pyIsSpace c then
        (if b then collapseWsAux true t else ' ' :: collapseWsAux true t)
        else c :: collapseWsAux false t) = true
      rw [if_pos h]
      cases b with
      | true => exact ih true
      | false =>
        show ((if pyIsSpace ' ' then startsNonWs (collapseWsAux true t) else true) &&
          noAdjWs (collapseWsAux true t)) = true
        rw [if_pos (by decide : pyIsSpace ' ' = true)]
        rw [startsNonWs_collapse_true, ih true]
        rfl
    · show noAdjWs (if pyIsSpace c then
        (if b then collapseWsAux true t else ' ' :: collapseWsAux true t)
        else c :: collapseWsAux false t) = true
      rw [if_neg h]
      show ((if pyIsSpace c then startsNonWs (collapseWsAux false t) else true) &&
        noAdjWs (collapseWsAux false t)) = true
      rw [if_neg h, ih false]
      rfl

theorem wsOnlySpace_cons (c : Char) (t : List Char) :
    wsOnlySpace (c :: t) =
      ((!pyIsSpace c || decide (c = ' ')) && wsOnlySpace t) := rfl

theorem wsOnlySpace_collapse (l : List Char) (b : Bool) :
    wsOnlySpace (collapseWsAux b l) = true := by
  induction l generalizing b with
  | nil => rfl
  | cons c t ih =>
    show wsOnlySpace (if pyIsSpace c then
      (if b then collapseWsAux true t else ' ' :: collapseWsAux true t)
      else c :: collapseWsAux false t) = true
    by_cases h : pyIsSpace c = true
    · rw [if_pos h]
      cases b with
      | true =>
        rw [if_pos rfl]
        exact ih true
      | false =>
        rw [if_neg (by decide)]
        rw [wsOnlySpace_cons, ih true]
        decide
    · rw [if_neg h]
      rw [wsOnlySpace_cons, ih false]
      simp [h]

theorem startsNonWs_collapse_false (l : List Char) (h : startsNonWs l = true) :
    startsNonWs (collapseWsAux false l) = true := by
  cases l with
  | nil => rfl
  | cons c t =>
    have hc : pyIsSpace c = false := by
      simpa [startsNonWs] using h
    show startsNonWs (if pyIsSpace c then ' ' :: collapseWsAux true t
      else c :: collapseWsAux false t) = true
    rw [if_neg (by simp [hc])]
    simp [startsNonWs, hc]

theorem collapse_true_eq_nil (l : List Char) :
    collapseWsAux true l = [] ↔ l.all pyIsSpace = true := by
  induction l with
  | nil => simp [collapseWsAux]
  | cons c t ih =>
    show (if pyIsSpace c then collapseWsAux true t
      else c :: collapseWsAux false t) = [] ↔ _
    by_cases h : pyIsSpace c = true
    · rw [if_pos h]
      simp [h, ih]
    · rw [if_neg h]
      simp [h]

theorem collapse_false_ne_nil (c : Char) (t : List Char) :
    collapseWsAux false (c :: t) ≠ [] := by
  show (if pyIsSpace c then ' ' :: collapseWsAux true t
    else c :: collapseWsAux false t) ≠ []
  by_cases h : pyIsSpace c = true
  · rw [if_pos h]
    simp
  · rw [if_neg h]
    simp

theorem endsNonWs_collapse (l : List Char) (b : Bool) (h : endsNonWs l = true) :
    endsNonWs (collapseWsAux b l) = true := by
  induction l generalizing b with
  | nil => cases b <;> rfl
  | cons c t ih =>
    cases t with
    | nil =>
      have hc : pyIsSpace c = false := by
        simpa [endsNonWs] using h
      show endsNonWs (if pyIsSpace c then
        (if b then collapseWsAux true [] else ' ' :: collapseWsAux true [])
        else c :: collapseWsAux false []) = true
      rw [if_neg (by simp [hc])]
      simp [endsNonWs, collapseWsAux, hc]
    | cons d ds =>
      have hends : endsNonWs (d :: ds) = true := by
        simpa [endsNonWs, List.getLast?_cons_cons] using h
      by_cases hc : pyIsSpace c = true
      · show endsNonWs (if pyIsSpace c then
          (if b then collapseWsAux true (d :: ds) else ' ' :: collapseWsAux true (d :: ds))
          else c :: collapseWsAux false (d :: ds)) = true
        rw [if_pos hc]
        have hX := ih true hends
        have hXne : collapseWsAux true (d :: ds) ≠ [] := by
          intro hnil
          have hall := (collapse_true_eq_nil (d :: ds)).1 hnil
          have hlast : (d :: ds).getLast (by simp) ∈ d :: ds := List.getLast_mem _
          have hsp := List.all_eq_true.1 hall _ hlast
          have hlq : (d :: ds).getLast? = some ((d :: ds).getLast (by simp)) :=
            List.getLast?_eq_getLast _ (by simp)
          rw [endsNonWs, hlq] at hends
          simp [hsp] at hends
        cases b with
        | true =>
          rw [if_pos rfl]
          exact hX
        | false =>
          rw [if_neg (by decide)]
          rcases hY : collapseWsAux true (d :: ds) with _ | ⟨y, ys⟩
          · exact absurd hY hXne
          · rw [hY] at hX
            simpa [endsNonWs, List.getLast?_cons_cons] using hX
      · show endsNonWs (if pyIsSpace c then
          (if b then collapseWsAux true (d :: ds) else ' ' :: collapseWsAux true (d :: ds))
          else c :: collapseWsAux false (d :: ds)) = true
        rw [if_neg hc]
        have hX := ih false hends
        rcases hY : collapseWsAux false (d :: ds) with _ | ⟨y, ys⟩
        · exact absurd hY (collapse_false_ne_nil d ds)
        · rw [hY] at hX
          simpa [endsNonWs, List.getLast?_cons_cons] using hX

theorem dropWhile_pyIsSpace_id (l : List Char) (h : startsNonWs l = true) :
    l.dropWhile pyIsSpace = l := by
  cases l with
  | nil => rfl
  | cons c t =>
    have hc : pyIsSpace c = false := by simpa [startsNonWs] using h
    rw [List.dropWhile_cons, hc]
    simp

theorem dropTrailingWs_id (l : List Char) (h : endsNonWs l = true) :
    dropTrailingWs l = l := by
  induction l with
  | nil => rfl
  | cons c t ih =>
    cases t with
    | nil =>
      have hc : pyIsSpace c = false := by simpa [endsNonWs] using h
      rw [dropTrailingWs_cons]
      simp [dropTrailingWs, hc]
    | cons d ds =>
      have hends : endsNonWs (d :: ds) = true := by
        simpa [endsNonWs, List.getLast?_cons_cons] using h
      rw [dropTrailingWs_cons, ih hends]
      simp

theorem collapse_id (l : List Char) :
    noAdjWs l = true → wsOnlySpace l = true →
    (collapseWsAux false l = l ∧
      (startsNonWs l = true → collapseWsAux true l = l)) := by
  induction l with
  | nil => exact fun _ _ => ⟨rfl, fun _ => rfl⟩
  | cons c t ih =>
    intro hadj hws
    have hadj0 : ((if pyIsSpace c then startsNonWs t else true) && noAdjWs t) = true :=
      hadj
    have hadjt : noAdjWs t = true := by
      have h := hadj0
      rw [Bool.and_eq_true] at h
      exact h.2
    have hws0 : ((!pyIsSpace c || decide (c = ' ')) && wsOnlySpace t) = true := by
      rw [← wsOnlySpace_cons]
      exact hws
    have hwst : wsOnlySpace t = true := by
      have h := hws0
      rw [Bool.and_eq_true] at h
      exact h.2
    by_cases hc : pyIsSpace c = true
    · have hcsp : c = ' ' := by
        have h1 : (!pyIsSpace c || decide (c = ' ')) = true := by
          have h := hws0
          rw [Bool.and_eq_true] at h
          exact h.1
        rw [Bool.or_eq_true] at h1
        rcases h1 with h2 | h2
        · rw [hc] at h2
          simp at h2
        · exact of_decide_eq_true h2
      have hstart : startsNonWs t = true := by
        have h1 : (if pyIsSpace c then startsNonWs t else true) = true := by
          have h := hadj0
          rw [Bool.and_eq_true] at h
          exact h.1
        rwa [if_pos hc] at h1
      constructor
      · show (if pyIsSpace c then ' ' :: collapseWsAux true t
          else c :: collapseWsAux false t) = c :: t
        rw [if_pos hc, (ih hadjt hwst).2 hstart, hcsp]
      · intro hst
        have hst0 : (!pyIsSpace c) = true := hst
        rw [hc] at hst0
        simp at hst0
    · constructor
      · show (if pyIsSpace c then ' ' :: collapseWsAux true t
          else c :: collapseWsAux false t) = c :: t
        rw [if_neg hc, (ih hadjt hwst).1]
      · intro _
        show (if pyIsSpace c then collapseWsAux true t
          else c :: collapseWsAux false t) = c :: t
        rw [if_neg hc, (ih hadjt hwst).1]

/-- Claim C10: `clean_text` is idempotent, and its output never has
leading or trailing whitespace nor two adjacent whitespace characters. -/
theorem clean_text_idempotent (t : String) :
    clean_text (clean_text t) = clean_text t ∧
    startsNonWs (clean_text t).data = true ∧
    endsNonWs (clean_text t).data = true ∧
    noAdjWs (clean_text t).data = true := by
  have hdata : (clean_text t).data = collapseWsAux false (pyStrip t.data) := rfl
  have hstrip_start : startsNonWs (pyStrip t.data) = true :=
    startsNonWs_dropTrailingWs _ (startsNonWs_dropWhile _)
  have hstart : startsNonWs (clean_text t).data = true := by
    rw [hdata]
    exact startsNonWs_collapse_false _ hstrip_start
  have hends : endsNonWs (clean_text t).data = true := by
    rw [hdata]
    exact endsNonWs_collapse _ false (endsNonWs_dropTrailingWs _)
  have hadj : noAdjWs (clean_text t).data = true := by
    rw [hdata]
    exact noAdjWs_collapse _ false
  have hws : wsOnlySpace (clean_text t).data = true := by
    rw [hdata]
    exact wsOnlySpace_collapse _ false
  refine ⟨?_, hstart, hends, hadj⟩
  have hstrip2 : pyStrip (clean_text t).data = (clean_text t).data := by
    unfold pyStrip
    rw [dropWhile_pyIsSpace_id _ hstart, dropTrailingWs_id _ hends]
  have hcoll : collapseWsAux false (clean_text t).data = (clean_text t).data :=
    (collapse_id _ hadj hws).1
  show (⟨collapseWsAux false (pyStrip (clean_text t).data)⟩ : String) = clean_text t
  rw [hstrip2, hcoll]

theorem attemptStep_none (oracle : Nat → AttemptOutcome) (st : SendLoopState)
    (attempt : Nat) (h : st.result = none) :
    attemptStep oracle st attempt =
      (if attemptOk (oracle attempt) then
        { st with result := some (successResult attempt (oracle attempt)) }
      else if attempt < MAX_RETRIES then
        { result := none
          retry_delay := min (st.retry_delay * 2) MAX_RETRY_DELAY
          last_error := some (attemptError (oracle attempt))
          sleeps := st.sleeps ++ [st.retry_delay] }
      else
        { st with last_error := some (attemptError (oracle attempt)) }) := by
  unfold attemptStep
  rw [h]

theorem attemptStep_some (oracle : Nat → AttemptOutcome) (st : SendLoopState)
    (attempt : Nat) (r : WebhookResult) (h : st.result = some r) :
    attemptStep oracle st attempt = st := by
  unfold attemptStep
  rw [h]

theorem successResult_success (attempt : Nat) (out : AttemptOutcome) :
    (successResult attempt out).success = true := by
  cases out <;> rfl

theorem successResult_attempts (attempt : Nat) (out : AttemptOutcome) :
    (successResult attempt out).attempts = attempt := by
  cases out <;> rfl

/-- Full evaluation of the three-attempt retry loop. -/
theorem sendLoop_eval (oracle : Nat → AttemptOutcome) :
    [1, 2, 3].foldl (attemptStep oracle)
      { result := none, retry_delay := INITIAL_RETRY_DELAY,
        last_error := none, sleeps := [] } =
      (if attemptOk (oracle 1) then
        { result := some (successResult 1 (oracle 1)), retry_delay := 1,
          last_error := none, sleeps := [] }
      else if attemptOk (oracle 2) then
        { result := some (successResult 2 (oracle 2)), retry_delay := 2,
          last_error := some (attemptError (oracle 1)), sleeps := [1] }
      else if attemptOk (oracle 3) then
        { result := some (successResult 3 (oracle 3)), retry_delay := 4,
          last_error := some (attemptError (oracle 2)), sleeps := [1, 2] }
      else
        { result := none, retry_delay := 4,
          last_error := some (attemptError (oracle 3)), sleeps := [1, 2] }) := by
  have hm1 : min ((1 : ℚ) * 2) MAX_RETRY_DELAY = 2 := by
    norm_num [MAX_RETRY_DELAY]
  have hm2 : min ((2 : ℚ) * 2) MAX_RETRY_DELAY = 4 := by
    norm_num [MAX_RETRY_DELAY]
  by_cases h1 : attemptOk (oracle 1) = true <;>
    by_cases h2 : attemptOk (oracle 2) = true <;>
      by_cases h3 : attemptOk (oracle 3) = true <;>
        simp [attemptStep, h1, h2, h3, hm1, hm2, INITIAL_RETRY_DELAY,
          MAX_RETRIES] <;>
          norm_num [MAX_RETRY_DELAY, min_def]

/-- Claim C5: `send_webhook` makes at most 3 attempts; it fails exactly
when all three attempts fail (timeout, connection failure, other
exception, or a status outside 200/201/202/204); on failure it reports
attempts = 3 and the last attempt's error, appends the delivery (url,
payload snapshot, failure time, last error) to the pending list, and
slept 1 second then 2 seconds between attempts (no delay after the
final attempt); on success the pending list is unchanged and the sleeps
are exactly those before the succeeding attempt.  The embedding is a
total function: no exception escapes. -/
theorem send_webhook_spec (oracle : Nat → AttemptOutcome)
    (pending : List PendingDelivery) (url : String) (payload : WebhookPayload)
    (now : String) :
    (send_webhook oracle pending url payload now).1.attempts ≤ MAX_RETRIES ∧
    ((send_webhook oracle pending url payload now).1.success = false ↔
      (attemptOk (oracle 1) = false ∧ attemptOk (oracle 2) = false ∧
        attemptOk (oracle 3) = false)) ∧
    ((send_webhook oracle pending url payload now).1.success = false →
      (send_webhook oracle pending url payload now).1.attempts = 3 ∧
      (send_webhook oracle pending url payload now).1.error =
        some (attemptError (oracle 3)) ∧
      (send_webhook oracle pending url payload now).2.1 = pending ++
        [{ url := url, payload := payload, failed_at := now,
           error := some (attemptError (oracle 3)) }] ∧
      (send_webhook oracle pending url payload now).2.2 = [1, 2]) ∧
    ((send_webhook oracle pending url payload now).1.success = true →
      (send_webhook oracle pending url payload now).2.1 = pending ∧
      (send_webhook oracle pending url payload now).2.2 =
        [(1 : ℚ), 2].take
          ((send_webhook oracle pending url payload now).1.attempts - 1)) := by
  by_cases h1 : attemptOk (oracle 1) = true <;>
    by_cases h2 : attemptOk (oracle 2) = true <;>
      by_cases h3 : attemptOk (oracle 3) = true <;>
        simp [send_webhook, sendLoop_eval oracle, h1, h2, h3,
          successResult_success, successResult_attempts, MAX_RETRIES]

/-- A concrete payload for the claim C5 witness. -/
def witnessPayload : WebhookPayload :=
  { post_id := "p1"
    decision := "RED"
    score := 1
    reason := "r"
    timestamp := "t"
    ai_decision := "RED"
    human_decision := none }

/-- Witness for claim C5: a destination that always times out gives a
failed result after three attempts, the delivery queued, with backoff
sleeps of 1 and 2 seconds. -/
theorem send_webhook_spec_witness :
    (send_webhook (fun _ => AttemptOutcome.timeout) [] "http://b/hook"
      witnessPayload "now").1.attempts = 3 ∧
    (send_webhook (fun _ => AttemptOutcome.timeout) [] "http://b/hook"
      witnessPayload "now").2.1 = [] ++
      [{ url := "http://b/hook"
         payload := witnessPayload
         failed_at := "now"
         error := some (attemptError AttemptOutcome.timeout) }] ∧
    (send_webhook (fun _ => AttemptOutcome.timeout) [] "http://b/hook"
      witnessPayload "now").2.2 = [1, 2] := by
  have h := (send_webhook_spec (fun _ => AttemptOutcome.timeout) []
    "http://b/hook" witnessPayload "now").2.2.1 (by decide)
  exact ⟨h.1, h.2.2.1, h.2.2.2⟩

/-- If the destination still fails, the live-list loop never reaches the
end of the list it iterates: each failing iteration appends a fresh
pending entry to that same list, so the iterator index never catches up
with the length. -/
theorem retryLoopRun_allFail_none (now err : String) :
    ∀ (fuel : Nat) (st : RetryLoopState), st.idx < st.lst.length →
      retryLoopRun (fun _ => false) now err fuel st = none := by
  intro fuel
  induction fuel with
  | zero => intro st _; rfl
  | succ n ih =>
    intro st h
    have hget : st.lst.get? st.idx = some (st.lst.get ⟨st.idx, h⟩) :=
      List.get?_eq_get h
    unfold retryLoopRun
    rw [hget]
    apply ih
    show (retryLoopStep (fun _ => false) now err st _).idx <
      (retryLoopStep (fun _ => false) now err st _).lst.length
    unfold retryLoopStep
    simp only [Bool.false_eq_true, if_false, List.length_append,
      List.length_singleton]
    omega

/-- Claim C6 (code bug): with a single queued delivery whose destination
keeps failing, `retry_pending_deliveries` does not terminate for any
iteration budget — the Python `for` loop iterates the very list that
`send_webhook` appends failed deliveries to, so the delivery is retried
without bound instead of exactly once. -/
theorem retry_pending_nontermination (fuel : Nat) (d : PendingDelivery)
    (now err : String) :
    retry_pending_deliveries (fun _ => false) now err [d] fuel = none := by
  unfold retry_pending_deliveries
  rw [if_neg (by simp)]
  exact retryLoopRun_allFail_none now err fuel _ (by simp)
